import Mathlib

/-!
Verification development for the AI Holiday Planner frontend
(`myapp/src/app`): TypeScript wire-contract models
(`models/planner.models.ts`), the HTTP service (`services/planner.service.ts`),
the chat component (`components/chat/chat.component.ts`) and the markdown
pipe (`pipes/markdown.pipe.ts`), together with spec-modelled backend
components (Response Parser, Session Store, Itinerary Orchestrator) whose
source lives outside this repository snapshot.
-/

namespace Planner

/-- Trim as JavaScript String.prototype.trim and Python str.strip do:
drop whitespace from both ends.  Modelled directly on the character list. -/
def jsTrim (s : String) : String :=
  ⟨((s.data.dropWhile Char.isWhitespace).reverse.dropWhile Char.isWhitespace).reverse⟩

/-! ### Wire shapes

A deep embedding of the JSON record shapes declared in
`models/planner.models.ts`.  A record field is (name, shape, required?);
`required = false` renders a TypeScript optional field (`filename?: string`). -/

inductive Shape where
  | str : Shape
  | num : Shape
  | bool : Shape
  | any : Shape
  | list : Shape → Shape
  | record : List (String × Shape × Bool) → Shape

/-- Field names of a record shape (empty for non-records). -/
def Shape.fieldNames : Shape → List String
  | .record fs => fs.map (fun f => f.1)
  | _ => []

/-- TypeScript interface ModelItem \x7b id: string; name: string \x7d. -/
def modelItemShape : Shape :=
  .record [("id", .str, true), ("name", .str, true)]

/-- TypeScript interface ProviderInfo \x7b provider; name; models: ModelItem[] \x7d. -/
def providerInfoShape : Shape :=
  .record [("provider", .str, true), ("name", .str, true),
           ("models", .list modelItemShape, true)]

/-- TypeScript interface ModelsResponse \x7b providers: ProviderInfo[] \x7d. -/
def modelsResponseShape : Shape :=
  .record [("providers", .list providerInfoShape, true)]

/-- TypeScript interface ItineraryRequest \x7b description; provider?; model? \x7d. -/
def itineraryRequestShape : Shape :=
  .record [("description", .str, true), ("provider", .str, false),
           ("model", .str, false)]

/-- TypeScript interface RefinementRequest \x7b session_id; feedback \x7d. -/
def refinementRequestShape : Shape :=
  .record [("session_id", .str, true), ("feedback", .str, true)]

/-- TypeScript interface FollowUpQuestion \x7b question; order \x7d. -/
def followUpQuestionShape : Shape :=
  .record [("question", .str, true), ("order", .num, true)]

/-- TypeScript interface ItineraryResponse. -/
def itineraryResponseShape : Shape :=
  .record [("session_id", .str, true), ("itinerary", .str, true),
           ("follow_up_questions", .list followUpQuestionShape, true),
           ("provider", .str, true), ("model", .str, true)]

/-- TypeScript interface SaveItineraryRequest \x7b session_id; filename? \x7d. -/
def saveItineraryRequestShape : Shape :=
  .record [("session_id", .str, true), ("filename", .str, false)]

/-- TypeScript interface SaveItineraryResponse \x7b success; filename; message \x7d. -/
def saveItineraryResponseShape : Shape :=
  .record [("success", .bool, true), ("filename", .str, true),
           ("message", .str, true)]

/-- The body posted by PlannerService.updateConfig: the object literal
\x7b provider, model \x7d. -/
def configRequestShape : Shape :=
  .record [("provider", .str, true), ("model", .str, true)]

/-! ### Typed values of the wire contracts (models/planner.models.ts) -/

structure ModelItem where
  id : String
  name : String
  deriving DecidableEq

structure ProviderInfo where
  provider : String
  name : String
  models : List ModelItem
  deriving DecidableEq

structure ItineraryRequest where
  description : String
  provider : Option String
  model : Option String
  deriving DecidableEq

structure RefinementRequest where
  session_id : String
  feedback : String
  deriving DecidableEq

structure FollowUpQuestion where
  question : String
  order : Nat
  deriving DecidableEq

structure ItineraryResponse where
  session_id : String
  itinerary : String
  follow_up_questions : List FollowUpQuestion
  provider : String
  model : String
  deriving DecidableEq

structure SaveItineraryRequest where
  session_id : String
  filename : Option String
  deriving DecidableEq

structure SaveItineraryResponse where
  success : Bool
  filename : String
  message : String
  deriving DecidableEq

/-- Body of the default-config update request. -/
structure ConfigRequest where
  provider : String
  model : String
  deriving DecidableEq

/-! ### PlannerService (services/planner.service.ts)

Each method is modelled as the HTTP call it issues: method, url, the body
value it sends, the declared body shape, and the declared response shape
(the Angular http call's type parameter). -/

inductive HttpMethod where
  | get
  | post
  | delete
  deriving DecidableEq

structure HttpCall (β : Type) where
  method : HttpMethod
  url : String
  body : β
  bodyShape : Option Shape
  responseShape : Shape

def apiUrl : String := "http://localhost:8000/api/v1/planner"

namespace PlannerService

def updateConfig (provider model : String) : HttpCall ConfigRequest :=
  ⟨.post, apiUrl ++ "/config/model", ⟨provider, model⟩, some configRequestShape, .any⟩

def getModels : HttpCall Unit :=
  ⟨.get, apiUrl ++ "/models", (), none, modelsResponseShape⟩

def generateItinerary (request : ItineraryRequest) : HttpCall ItineraryRequest :=
  ⟨.post, apiUrl ++ "/generate", request, some itineraryRequestShape, itineraryResponseShape⟩

def refineItinerary (request : RefinementRequest) : HttpCall RefinementRequest :=
  ⟨.post, apiUrl ++ "/refine", request, some refinementRequestShape, itineraryResponseShape⟩

def saveItinerary (request : SaveItineraryRequest) : HttpCall SaveItineraryRequest :=
  ⟨.post, apiUrl ++ "/save", request, some saveItineraryRequestShape, saveItineraryResponseShape⟩

def getSession (sessionId : String) : HttpCall Unit :=
  ⟨.get, apiUrl ++ "/sessions/" ++ sessionId, (), none, itineraryResponseShape⟩

def deleteSession (sessionId : String) : HttpCall Unit :=
  ⟨.delete, apiUrl ++ "/sessions/" ++ sessionId, (), none, .any⟩

end PlannerService

/-! ### ChatComponent (components/chat/chat.component.ts) -/

inductive Role where
  | user
  | assistant
  deriving DecidableEq

/-- The component's Message interface: role, content, optional follow-ups. -/
structure Message where
  role : Role
  content : String
  followUpQuestions : Option (List FollowUpQuestion)
  deriving DecidableEq

/-- The mutable fields of ChatComponent that sendMessage, resetChat,
handleResponse, handleError and the selection handlers read or write. -/
structure ChatState where
  providers : List ProviderInfo
  selectedProvider : String
  selectedModel : String
  userInput : String
  messages : List Message
  isLoading : Bool
  sessionId : Option String
  deriving DecidableEq

/-- The request a sendMessage call hands to PlannerService. -/
inductive OutRequest where
  | generate : ItineraryRequest → OutRequest
  | refine : RefinementRequest → OutRequest
  deriving DecidableEq

namespace ChatComponent

/-- resetChat(): clears messages and input, nulls the session id, stops the
loading flag. -/
def resetChat (s : ChatState) : ChatState :=
  { s with messages := [], sessionId := none, userInput := "", isLoading := false }

/-- sendMessage(): returns early when the input trims to the empty string
(JavaScript falsiness of the trimmed string); otherwise pushes the user turn,
clears the input, raises the loading flag, and branches on the JavaScript
falsiness of sessionId: a null or empty-string session id issues a generate
request, any other session id issues a refine request carrying it. -/
def sendMessage (s : ChatState) : ChatState × Option OutRequest :=
  if jsTrim s.userInput = "" then (s, none)
  else
    let text := s.userInput
    let s' : ChatState :=
      { s with userInput := "", messages := s.messages ++ [⟨.user, text, none⟩],
               isLoading := true }
    match s.sessionId with
    | none => (s', some (.generate ⟨text, some s.selectedProvider, some s.selectedModel⟩))
    | some sid =>
      if sid = "" then
        (s', some (.generate ⟨text, some s.selectedProvider, some s.selectedModel⟩))
      else (s', some (.refine ⟨sid, text⟩))

/-- updateBackendConfig(): posts the currently selected provider and model. -/
def updateBackendConfig (s : ChatState) : HttpCall ConfigRequest :=
  PlannerService.updateConfig s.selectedProvider s.selectedModel

/-- onProviderChange(): resets selectedModel to the first model of the newly
selected provider when it exists and has models, then updates the backend
config. -/
def onProviderChange (s : ChatState) : ChatState × HttpCall ConfigRequest :=
  let s' : ChatState :=
    match s.providers.find? (fun p => p.provider = s.selectedProvider) with
    | some p =>
      match p.models with
      | m :: _ => { s with selectedModel := m.id }
      | [] => s
    | none => s
  (s', updateBackendConfig s')

/-- onModelChange(): updates the backend config with the current selection. -/
def onModelChange (s : ChatState) : ChatState × HttpCall ConfigRequest :=
  (s, updateBackendConfig s)

/-- handleError(err): appends the fixed apology message as an assistant turn
and lowers the loading flag. -/
def handleError (s : ChatState) : ChatState :=
  { s with
      messages := s.messages ++
        [⟨.assistant, "Sorry, something went wrong. Please try again.", none⟩],
      isLoading := false }

/-- A generate/refine response as it arrives at runtime: the itinerary field
may be absent (none) even though the TypeScript interface declares a string. -/
structure WireItineraryResponse where
  session_id : String
  itinerary : Option String
  follow_up_questions : List FollowUpQuestion
  provider : String
  model : String
  deriving DecidableEq

/-- handleResponse(response): a null response, or one whose itinerary is
absent or the empty string (JavaScript falsiness), is routed to handleError;
otherwise the session id is recorded, the itinerary is appended as an
assistant turn with its follow-up questions, and loading stops. -/
def handleResponse (s : ChatState) (response : Option WireItineraryResponse) : ChatState :=
  match response with
  | none => handleError s
  | some r =>
    match r.itinerary with
    | none => handleError s
    | some itin =>
      if itin = "" then handleError s
      else
        { s with sessionId := some r.session_id,
                 messages := s.messages ++ [⟨.assistant, itin, some r.follow_up_questions⟩],
                 isLoading := false }

end ChatComponent

/-! ### MarkdownPipe (pipes/markdown.pipe.ts) -/

/-- JavaScript String.prototype.replace with a global literal pattern:
a single left-to-right scan; at each position the pattern, when it matches,
is consumed and the replacement emitted, otherwise one character is kept.
The fuel argument makes the recursion structural; every recursive call
strips at least one character, so fuel equal to the input length never runs
out. -/
def replaceAllF (p r : List Char) : Nat → List Char → List Char
  | _, [] => []
  | 0, _ => []
  | Nat.succ fuel, c :: s =>
    if p.isPrefixOf (c :: s) then r ++ replaceAllF p r fuel (s.drop (p.length - 1))
    else c :: replaceAllF p r fuel s

/-- Global literal replacement over character lists. -/
def replaceAll (p r s : List Char) : List Char :=
  replaceAllF p r s.length s

/-- String wrapper around replaceAll. -/
def replaceAllS (p r s : String) : String :=
  ⟨replaceAll p.data r.data s.data⟩

namespace MarkdownPipe

/-- The opening-tag text substituted for every anchor occurrence. -/
def anchorTag : String := "<a target=\"_blank\" rel=\"noopener noreferrer\" "

/-- transform(value): empty or absent input yields the empty string; otherwise
escaped brackets are unescaped, the external marked.parse (the markedParse
argument) renders the markdown, and every anchor-tag opener in the html is
rewritten to carry target and rel attributes.  The DomSanitizer
bypassSecurityTrustHtml wrapper is modelled as the identity on the html text. -/
def transform (markedParse : String → String) (value : Option String) : String :=
  match value with
  | none => ""
  | some v =>
    if v = "" then ""
    else
      let cleanValue := replaceAllS "\\]" "]" (replaceAllS "\\[" "[" v)
      let html := markedParse cleanValue
      replaceAllS "<a " anchorTag html

end MarkdownPipe

/-! ### Spec-modelled backend components

The FastAPI backend (routes, llm service, session management) is not part of
this repository snapshot; the components below are modelled from the spec. -/

/-- The spec's error taxonomy (section 7). -/
inductive PlannerError where
  | validation : String → PlannerError
  | notFound : PlannerError
  | config : PlannerError
  | providerUnavailable : PlannerError
  | persistence : PlannerError
  deriving DecidableEq

/-- Modelled from the spec: the designated follow-up-questions marker literal
is implementation-defined; the spec's test scenario uses this line. -/
def followUpMarker : String := "Follow-up Questions:"

/-- A line is the marker when it trims to the marker literal. -/
def isMarker (line : String) : Bool := jsTrim line = followUpMarker

/-- Split a list of lines at the first line satisfying p: returns the lines
strictly before it and the lines strictly after it, or none when no line
satisfies p. -/
def splitAtFirst (p : String → Bool) : List String → Option (List String × List String)
  | [] => none
  | l :: ls =>
    if p l then some ([], ls)
    else
      match splitAtFirst p ls with
      | none => none
      | some (before, after) => some (l :: before, after)

/-- Modelled from the spec: the numbered-list pattern for a follow-up line.
A trimmed line of the form digits, a dot, and the question text matches and
yields the trimmed text; anything else is skipped. -/
def matchNumbered (line : String) : Option String :=
  let t := (jsTrim line).data
  let ds := t.takeWhile Char.isDigit
  if ds = [] then none
  else
    match t.drop ds.length with
    | '.' :: rest => some (jsTrim ⟨rest⟩)
    | _ => none

/-- Assign order values k, k+1, ... to a list of question texts by position. -/
def numberFrom (k : Nat) : List String → List FollowUpQuestion
  | [] => []
  | q :: qs => ⟨q, k⟩ :: numberFrom (k + 1) qs

/-- Modelled from the spec: the Response Parser (backend service, not under
src/).  parse locates the first follow-up-marker line; the lines before it
form the itinerary body and the lines after it are matched against the
numbered-list pattern, non-matching lines being skipped; order values are
assigned by strict 1-based position in the parsed list.  A missing marker
yields the full text and an empty question list.  The raw text is modelled
as its list of lines. -/
def parse (lines : List String) : List String × List FollowUpQuestion :=
  match splitAtFirst isMarker lines with
  | none => (lines, [])
  | some (before, after) => (before, numberFrom 1 (after.filterMap matchNumbered))

/-! ### Session Store (spec section 4.2, backend not under src/) -/

inductive SessionStatus where
  | ACTIVE
  | DELETED
  deriving DecidableEq

structure Turn where
  role : Role
  text : String
  deriving DecidableEq

structure Session where
  provider : String
  model : String
  conversation_history : List Turn
  current_itinerary : String
  pending_follow_up_questions : List FollowUpQuestion
  status : SessionStatus
  deriving DecidableEq

abbrev SessionStore : Type := List (String × Session)

namespace SessionStore

/-- Mark the session with the given id (when present) as DELETED. -/
def markDeleted (st : SessionStore) (id : String) : SessionStore :=
  st.map fun kv => if kv.1 = id then (kv.1, { kv.2 with status := .DELETED }) else kv

/-- Modelled from the spec: Session Store delete (backend, not under src/):
idempotent; logically destroys a present session by marking it DELETED and
succeeds silently on an unknown or already-deleted id. -/
def deleteSession (st : SessionStore) (id : String) : Except PlannerError SessionStore :=
  .ok (markDeleted st id)

end SessionStore

/-! ### Itinerary Orchestrator (spec section 4.5, backend not under src/) -/

/-- Modelled from the spec: the Prompt Builder generation template — a fixed
instruction to emit a markdown itinerary followed by the delimited question
list, with the description embedded. -/
def buildGeneration (description : String) : String :=
  "Create a detailed markdown travel itinerary for the trip below, then list ordered follow-up questions after a line reading " ++
    followUpMarker ++ "\n" ++ description

def joinLines (ls : List String) : String := String.intercalate "\n" ls

/-- Modelled from the spec: the Itinerary Orchestrator generate operation
(backend, not under src/): fails ValidationError on an empty or blank
description; otherwise builds the generation prompt, invokes the provider
(the invoke argument), parses the raw reply, creates the session with the
user and assistant turns, and returns the structured result. -/
def generate (invoke : String → String) (freshId provider model description : String) :
    Except PlannerError (Session × ItineraryResponse) :=
  if jsTrim description = "" then
    .error (.validation "Description must not be empty")
  else
    let raw := invoke (buildGeneration description)
    let pr := parse (raw.splitOn "\n")
    let itin := joinLines pr.1
    let sess : Session :=
      { provider := provider, model := model,
        conversation_history := [⟨.user, description⟩, ⟨.assistant, itin⟩],
        current_itinerary := itin,
        pending_follow_up_questions := pr.2,
        status := .ACTIVE }
    .ok (sess, ⟨freshId, itin, pr.2, provider, model⟩)

/-! ### Helper lemmas -/

theorem splitAtFirst_of_not (p : String → Bool) :
    ∀ ls : List String, (∀ l ∈ ls, p l = false) → splitAtFirst p ls = none := by
  intro ls
  induction ls with
  | nil => intro _; rfl
  | cons l tl ih =>
    intro h
    have hl : p l = false := h l (List.mem_cons_self l tl)
    have htl := ih (fun x hx => h x (List.mem_cons_of_mem l hx))
    simp [splitAtFirst, hl, htl]

theorem splitAtFirst_append (p : String → Bool) (m : String) (after : List String)
    (hm : p m = true) :
    ∀ before : List String, (∀ l ∈ before, p l = false) →
      splitAtFirst p (before ++ m :: after) = some (before, after) := by
  intro before
  induction before with
  | nil => intro _; simp [splitAtFirst, hm]
  | cons l tl ih =>
    intro hb
    have hl : p l = false := hb l (List.mem_cons_self l tl)
    have ih2 := ih (fun x hx => hb x (List.mem_cons_of_mem l hx))
    simp [splitAtFirst, hl, ih2]

theorem numberFrom_map_order : ∀ (qs : List String) (k : Nat),
    (numberFrom k qs).map FollowUpQuestion.order = List.range' k qs.length := by
  intro qs
  induction qs with
  | nil => intro _; rfl
  | cons q tl ih =>
    intro k
    simp [numberFrom, List.range', ih]

theorem markDeleted_idem (st : SessionStore) (id : String) :
    SessionStore.markDeleted (SessionStore.markDeleted st id) id =
      SessionStore.markDeleted st id := by
  induction st with
  | nil => rfl
  | cons kv tl ih =>
    simp only [SessionStore.markDeleted, List.map_cons] at ih ⊢
    by_cases h : kv.1 = id
    · simp [h, ih]
    · simp [h, ih]

/-! ### Claim theorems -/

/-- C1: Every result of the generate, refine and get-session operations has
exactly the fields session_id, itinerary, follow_up_questions, provider and
model, where follow_up_questions is a sequence of records with fields
question and order; get-session's output mirrors generate's output shape. -/
theorem itineraryResponse_shape_contract :
    (∀ request : ItineraryRequest,
      (PlannerService.generateItinerary request).responseShape = itineraryResponseShape) ∧
    (∀ request : RefinementRequest,
      (PlannerService.refineItinerary request).responseShape = itineraryResponseShape) ∧
    (∀ sessionId : String,
      (PlannerService.getSession sessionId).responseShape = itineraryResponseShape) ∧
    itineraryResponseShape =
      Shape.record [("session_id", .str, true), ("itinerary", .str, true),
        ("follow_up_questions",
          .list (.record [("question", .str, true), ("order", .num, true)]), true),
        ("provider", .str, true), ("model", .str, true)] :=
  ⟨fun _ => rfl, fun _ => rfl, fun _ => rfl, rfl⟩

/-- C2: On raw text containing the follow-up marker, parse returns exactly
the lines preceding the marker as the itinerary and the question list whose
order values are exactly 1..N assigned by list position; on raw text with no
marker it returns the full text and an empty question list, and it is total
(never raises). -/
theorem parse_contract :
    (∀ before m after, (∀ l ∈ before, isMarker l = false) → isMarker m = true →
      parse (before ++ m :: after) =
        (before, numberFrom 1 (after.filterMap matchNumbered)) ∧
      (parse (before ++ m :: after)).2.map FollowUpQuestion.order =
        List.range' 1 (after.filterMap matchNumbered).length) ∧
    (∀ lines, (∀ l ∈ lines, isMarker l = false) → parse lines = (lines, [])) := by
  constructor
  · intro before m after hb hm
    have h := splitAtFirst_append isMarker m after hm before hb
    constructor
    · simp [parse, h]
    · simp [parse, h, numberFrom_map_order]
  · intro lines h
    simp [parse, splitAtFirst_of_not isMarker lines h]

/-- Witness for C2 at the spec's Oslo scenario. -/
theorem parse_contract_witness :
    (∀ l ∈ (["# Oslo Itinerary", "Day 1: fjord walk"] : List String), isMarker l = false) ∧
    isMarker "Follow-up Questions:" = true ∧
    parse (["# Oslo Itinerary", "Day 1: fjord walk"] ++
        "Follow-up Questions:" :: ["1. Beach or city?", "2. Budget range?"]) =
      (["# Oslo Itinerary", "Day 1: fjord walk"],
        numberFrom 1 ((["1. Beach or city?", "2. Budget range?"] : List String).filterMap matchNumbered)) ∧
    numberFrom 1 ((["1. Beach or city?", "2. Budget range?"] : List String).filterMap matchNumbered) =
      [⟨"Beach or city?", 1⟩, ⟨"Budget range?", 2⟩] :=
  ⟨by decide, by decide,
    (parse_contract.1 _ _ _ (by decide) (by decide)).1, by decide⟩

/-- C6: The save operation's input has the fields session_id and optional
filename, and its output has exactly the fields success, filename and
message. -/
theorem save_shape_contract :
    (∀ request : SaveItineraryRequest,
      (PlannerService.saveItinerary request).bodyShape = some saveItineraryRequestShape ∧
      (PlannerService.saveItinerary request).responseShape = saveItineraryResponseShape) ∧
    saveItineraryRequestShape =
      Shape.record [("session_id", .str, true), ("filename", .str, false)] ∧
    saveItineraryResponseShape =
      Shape.record [("success", .bool, true), ("filename", .str, true),
        ("message", .str, true)] :=
  ⟨fun _ => ⟨rfl, rfl⟩, rfl, rfl⟩

/-- C7 counterexample: the models listing does not return a bare sequence of
provider entries; its response shape is not a list shape at all. -/
theorem models_response_not_bare_list :
    ¬ PlannerService.getModels.responseShape = Shape.list providerInfoShape :=
  fun h => Shape.noConfusion h

/-- C7 amended: Listing providers/models returns a record with the single
field providers holding the sequence of entries, each having exactly the
fields provider, name and models, where models is a list of records with
fields id and name. -/
theorem models_response_shape_contract :
    PlannerService.getModels.responseShape =
      Shape.record [("providers", .list providerInfoShape, true)] ∧
    providerInfoShape =
      Shape.record [("provider", .str, true), ("name", .str, true),
        ("models", .list modelItemShape, true)] ∧
    modelItemShape = Shape.record [("id", .str, true), ("name", .str, true)] :=
  ⟨rfl, rfl, rfl⟩

/-- C8: Every default-config update request has a body of exactly the fields
provider and model (no itinerary payload), and such a request is sent with
the currently selected provider id and model id whenever the provider or the
model selection changes. -/
theorem config_update_contract :
    (∀ provider model,
      (PlannerService.updateConfig provider model).bodyShape = some configRequestShape ∧
      (PlannerService.updateConfig provider model).body = ⟨provider, model⟩) ∧
    configRequestShape = Shape.record [("provider", .str, true), ("model", .str, true)] ∧
    "itinerary" ∉ configRequestShape.fieldNames ∧
    (∀ s : ChatState,
      (ChatComponent.onProviderChange s).2 =
        PlannerService.updateConfig (ChatComponent.onProviderChange s).1.selectedProvider
          (ChatComponent.onProviderChange s).1.selectedModel ∧
      (ChatComponent.onModelChange s).2 =
        PlannerService.updateConfig s.selectedProvider s.selectedModel) :=
  ⟨fun _ _ => ⟨rfl, rfl⟩, rfl, by decide, fun _ => ⟨rfl, rfl⟩⟩

/-- C3: Submitting a message whose input trims to the empty string issues no
generate or refine request and leaves the component state unchanged; the
orchestrator's generate fails with ValidationError on an empty or blank
description. -/
theorem blank_input_no_request :
    (∀ s : ChatState, jsTrim s.userInput = "" →
      ChatComponent.sendMessage s = (s, none)) ∧
    (∀ (invoke : String → String) (freshId provider model description : String),
      jsTrim description = "" →
      generate invoke freshId provider model description =
        Except.error (.validation "Description must not be empty")) := by
  constructor
  · intro s h
    simp [ChatComponent.sendMessage, h]
  · intro invoke freshId provider model description h
    simp [generate, h]

/-- Witness for C3 at a whitespace-only input. -/
theorem blank_input_no_request_witness :
    jsTrim "   " = "" ∧
    ChatComponent.sendMessage ⟨[], "cerebras", "llama-3.3-70b", "   ", [], false, none⟩ =
      (⟨[], "cerebras", "llama-3.3-70b", "   ", [], false, none⟩, none) ∧
    generate (fun prompt => prompt) "id-1" "cerebras" "llama-3.3-70b" " " =
      Except.error (.validation "Description must not be empty") :=
  ⟨by decide, blank_input_no_request.1 _ (by decide),
    blank_input_no_request.2 _ _ _ _ _ (by decide)⟩

/-- C4 counterexample: the routing test is JavaScript falsiness, not a
null check — a send whose session id is the non-null empty string issues a
generate request, not a refine request carrying that id, refuting the
claim's non-null-implies-refine half at a concrete state. -/
theorem session_routing_empty_id_counterexample :
    (⟨[], "openai", "gpt-4o", "hi there", [], false, some ""⟩ : ChatState).sessionId =
      some "" ∧
    jsTrim "hi there" ≠ "" ∧
    (ChatComponent.sendMessage ⟨[], "openai", "gpt-4o", "hi there", [], false, some ""⟩).2 =
      some (.generate ⟨"hi there", some "openai", some "gpt-4o"⟩) ∧
    ¬ (ChatComponent.sendMessage ⟨[], "openai", "gpt-4o", "hi there", [], false, some ""⟩).2 =
      some (.refine ⟨"", "hi there"⟩) := by
  refine ⟨rfl, by decide, by decide, by decide⟩

/-- C4 amended: A chat reset nulls the stored session id (and clears the
conversation); a subsequent send with a null or empty-string session id
issues a generate request whose wire shape carries no session id at all,
while a send with a non-null, non-empty session id issues a refine request
carrying exactly that session id and the new feedback — no event-bus
mechanism is needed in the core. -/
theorem reset_and_session_routing :
    (∀ s : ChatState, (ChatComponent.resetChat s).sessionId = none ∧
      (ChatComponent.resetChat s).messages = [] ∧
      (ChatComponent.resetChat s).userInput = "" ∧
      (ChatComponent.resetChat s).isLoading = false) ∧
    (∀ s : ChatState, (s.sessionId = none ∨ s.sessionId = some "") →
      jsTrim s.userInput ≠ "" →
      (ChatComponent.sendMessage s).2 =
        some (.generate ⟨s.userInput, some s.selectedProvider, some s.selectedModel⟩)) ∧
    (∀ (s : ChatState) (sid : String), s.sessionId = some sid → sid ≠ "" →
      jsTrim s.userInput ≠ "" →
      (ChatComponent.sendMessage s).2 = some (.refine ⟨sid, s.userInput⟩)) ∧
    "session_id" ∉ itineraryRequestShape.fieldNames := by
  refine ⟨fun s => ⟨rfl, rfl, rfl, rfl⟩, ?_, ?_, by decide⟩
  · intro s h hne
    rcases h with h | h
    · simp [ChatComponent.sendMessage, hne, h]
    · simp [ChatComponent.sendMessage, hne, h]
  · intro s sid h hsid hne
    simp [ChatComponent.sendMessage, hne, h, hsid]

/-- Witness for C4: a fresh (null-session) send generates, a send holding a
non-empty session id refines with that id. -/
theorem reset_and_session_routing_witness :
    jsTrim "plan a trip" ≠ "" ∧
    (ChatComponent.sendMessage ⟨[], "openai", "gpt-4o", "plan a trip", [], false, none⟩).2 =
      some (.generate ⟨"plan a trip", some "openai", some "gpt-4o"⟩) ∧
    (ChatComponent.sendMessage ⟨[], "openai", "gpt-4o", "more beaches", [], false, some "s-1"⟩).2 =
      some (.refine ⟨"s-1", "more beaches"⟩) :=
  ⟨by decide, reset_and_session_routing.2.1 _ (Or.inl rfl) (by decide),
    reset_and_session_routing.2.2.1 _ _ rfl (by decide) (by decide)⟩

/-- C5: delete is idempotent: deleting twice never errors on the second
call, an unknown or already-deleted id succeeds silently, and the client's
delete call is a plain DELETE with no body. -/
theorem delete_idempotent :
    (∀ (st : SessionStore) (id : String),
      SessionStore.deleteSession st id = Except.ok (SessionStore.markDeleted st id) ∧
      SessionStore.deleteSession (SessionStore.markDeleted st id) id =
        Except.ok (SessionStore.markDeleted st id)) ∧
    (∀ sessionId : String,
      (PlannerService.deleteSession sessionId).method = HttpMethod.delete ∧
      (PlannerService.deleteSession sessionId).bodyShape = none) := by
  refine ⟨fun st id => ⟨rfl, ?_⟩, fun _ => ⟨rfl, rfl⟩⟩
  simp [SessionStore.deleteSession, markDeleted_idem]

/-- C9: A null response, or one with an absent or empty itinerary, leaves
the recorded session id unchanged and appends the fixed apology message;
both the success and the error branch end with the loading flag false. -/
theorem response_handling :
    (∀ s : ChatState, ChatComponent.handleResponse s none = ChatComponent.handleError s) ∧
    (∀ (s : ChatState) (r : ChatComponent.WireItineraryResponse), r.itinerary = none →
      ChatComponent.handleResponse s (some r) = ChatComponent.handleError s) ∧
    (∀ (s : ChatState) (r : ChatComponent.WireItineraryResponse), r.itinerary = some "" →
      ChatComponent.handleResponse s (some r) = ChatComponent.handleError s) ∧
    (∀ s : ChatState, (ChatComponent.handleError s).sessionId = s.sessionId ∧
      (ChatComponent.handleError s).messages =
        s.messages ++ [⟨.assistant, "Sorry, something went wrong. Please try again.", none⟩] ∧
      (ChatComponent.handleError s).isLoading = false) ∧
    (∀ (s : ChatState) (r : ChatComponent.WireItineraryResponse) (itin : String),
      r.itinerary = some itin → itin ≠ "" →
      (ChatComponent.handleResponse s (some r)).sessionId = some r.session_id ∧
      (ChatComponent.handleResponse s (some r)).isLoading = false) := by
  refine ⟨fun _ => rfl, ?_, ?_, fun _ => ⟨rfl, rfl, rfl⟩, ?_⟩
  · intro s r h
    simp [ChatComponent.handleResponse, h]
  · intro s r h
    simp [ChatComponent.handleResponse, h]
  · intro s r itin h hne
    simp [ChatComponent.handleResponse, h, hne]

/-- Witness for C9: an absent-itinerary response degrades to the error path,
a non-empty one records the session id and stops loading. -/
theorem response_handling_witness :
    ChatComponent.handleResponse ⟨[], "openai", "gpt-4o", "", [], true, none⟩
        (some ⟨"s-8", none, [], "openai", "gpt-4o"⟩) =
      ChatComponent.handleError ⟨[], "openai", "gpt-4o", "", [], true, none⟩ ∧
    (ChatComponent.handleResponse ⟨[], "openai", "gpt-4o", "", [], true, none⟩
        (some ⟨"s-9", some "# Oslo", [], "openai", "gpt-4o"⟩)).sessionId = some "s-9" ∧
    (ChatComponent.handleResponse ⟨[], "openai", "gpt-4o", "", [], true, none⟩
        (some ⟨"s-9", some "# Oslo", [], "openai", "gpt-4o"⟩)).isLoading = false :=
  ⟨response_handling.2.1 _ _ rfl,
    (response_handling.2.2.2.2 _ _ "# Oslo" rfl (by decide)).1,
    (response_handling.2.2.2.2 _ _ "# Oslo" rfl (by decide)).2⟩

/-- C10: MarkdownPipe.transform returns the empty string on absent or empty
input; on non-empty input it unescapes every escaped bracket before markdown
parsing and rewrites every anchor-tag opener of the rendered html to carry
target and rel attributes, all by a global left-to-right literal replace. -/
theorem markdown_transform_contract :
    (∀ markedParse : String → String, MarkdownPipe.transform markedParse none = "") ∧
    (∀ markedParse : String → String, MarkdownPipe.transform markedParse (some "") = "") ∧
    (∀ (markedParse : String → String) (v : String), v ≠ "" →
      MarkdownPipe.transform markedParse (some v) =
        replaceAllS "<a " MarkdownPipe.anchorTag
          (markedParse (replaceAllS "\\]" "]" (replaceAllS "\\[" "[" v)))) := by
  refine ⟨fun _ => rfl, fun _ => rfl, ?_⟩
  intro markedParse v h
  simp [MarkdownPipe.transform, h]

/-- Witness for C10: a markdown link with escaped brackets is unescaped, and
an identity renderer's anchor is rewritten. -/
theorem markdown_transform_contract_witness :
    ("see \\[map\\](url)" : String) ≠ "" ∧
    MarkdownPipe.transform (fun html => html) (some "see \\[map\\](url)") =
      replaceAllS "<a " MarkdownPipe.anchorTag
        (replaceAllS "\\]" "]" (replaceAllS "\\[" "[" "see \\[map\\](url)")) ∧
    replaceAllS "\\]" "]" (replaceAllS "\\[" "[" "see \\[map\\](url)") = "see [map](url)" ∧
    replaceAllS "<a " MarkdownPipe.anchorTag "<a href=x>go</a>" =
      "<a target=\"_blank\" rel=\"noopener noreferrer\" href=x>go</a>" :=
  ⟨by decide, markdown_transform_contract.2.2 (fun html => html) _ (by decide),
    by decide, by decide⟩

end Planner
